import Mathlib

/-
Verification of the update-delivery core of a Telegram bot API binding
(package tgbotapi, file types.go).

The Go code is shallowly embedded as follows:
* Go strings are byte/character sequences, modelled as `List Char`
  (all inputs of interest are ASCII, where Go's byte indexing and the
  character view coincide).
* Go struct types become Lean structures; a Go pointer field `*T`
  becomes `Option T`; the zero value of a struct is the structure with
  all default fields.
* JSON documents are the inductive `Json` (numbers are modelled as
  integers; no claim involves floating-point values).
* Decoding with encoding/json's `Unmarshal` against the struct tags of
  types.go is modelled field-fold by field-fold: an object's members are
  processed in order, each member key is matched case-insensitively
  against the struct tags, unknown keys are skipped, `null` is a no-op
  for string/integer/boolean fields and sets pointer fields to nil, and
  a member whose value has the wrong shape for its field is a type
  error.  Unmarshalling into a non-nil pointer reuses the pointee
  (Go's merge semantics for duplicate keys).
* The buffered update channel is modelled as a FIFO list of updates
  (head = next value delivered by a receive); `Clear`'s
  receive-while-nonempty loop is modelled as a step function that lets
  a concurrent producer deliver a batch of sends before every
  length check of the loop.
* A method with pointer receiver, invoked on a possibly nil pointer,
  is modelled as a function out of `Option` returning `Except GoPanic`:
  dereferencing a nil receiver is Go's nil-pointer panic.
-/

namespace tgbotapi

/-- Go strings, as character lists. -/
abbrev GoStr := List Char

/-- Shorthand for writing Go string literals. -/
def gs (s : String) : GoStr := s.toList

/- A JSON value.  Objects keep their members in source order, as
encoding/json's decoder processes them. -/
mutual
inductive Json where
  | null : Json
  | boolean (b : Bool) : Json
  | num (n : Int) : Json
  | str (s : GoStr) : Json
  | arr (xs : JsonList) : Json
  | obj (fs : JsonFields) : Json
inductive JsonList where
  | nil : JsonList
  | cons (hd : Json) (tl : JsonList) : JsonList
inductive JsonFields where
  | nil : JsonFields
  | cons (k : GoStr) (v : Json) (tl : JsonFields) : JsonFields
end

/-- Convert an object's member list to an ordinary list. -/
def JsonFields.toList : JsonFields → List (GoStr × Json)
  | .nil => []
  | .cons k v tl => (k, v) :: tl.toList

/-- Convert an ordinary list to an object member list. -/
def fieldsOf : List (GoStr × Json) → JsonFields
  | [] => .nil
  | (k, v) :: tl => .cons k v (fieldsOf tl)

deriving instance DecidableEq for Json

/-- Build a JSON object from a member list. -/
def jobj (l : List (GoStr × Json)) : Json := .obj (fieldsOf l)

/-- Convert an array's element list to an ordinary list. -/
def JsonList.toList : JsonList → List Json
  | .nil => []
  | .cons hd tl => hd :: tl.toList

/-- Build a JSON array from an element list. -/
def jarr (l : List Json) : Json :=
  .arr (l.foldr (fun v xs => JsonList.cons v xs) .nil)

/-- The single way the modelled decoder fails: a JSON value whose shape
does not fit the Go field it is decoded into (encoding/json's
UnmarshalTypeError). -/
inductive UnmarshalError where
  | typeError : UnmarshalError
deriving DecidableEq

/-- ASCII lower-casing, as used by encoding/json's case-insensitive
field-name match (all tags in types.go are ASCII). -/
def foldChar (c : Char) : Char :=
  if 'A' ≤ c ∧ c ≤ 'Z' then Char.ofNat (c.toNat + 32) else c

/-- encoding/json matches a JSON member key against a struct tag
case-insensitively. -/
def keyMatch (k tag : GoStr) : Bool :=
  k.map foldChar == tag.map foldChar

/-- Error-propagating sequencing for decoding steps. -/
def step {α β : Type} (r : Except UnmarshalError α)
    (f : α → Except UnmarshalError β) : Except UnmarshalError β :=
  match r with
  | .ok x => f x
  | .error e => .error e

/-- Decode a JSON value into a Go string field: `null` leaves the
current value unchanged, anything other than a string is a type error. -/
def jstr (v : Json) (cur : GoStr) : Except UnmarshalError GoStr :=
  match v with
  | .str s => .ok s
  | .null => .ok cur
  | _ => .error .typeError

/-- Decode a JSON value into a Go int/int64 field. -/
def jint (v : Json) (cur : Int) : Except UnmarshalError Int :=
  match v with
  | .num n => .ok n
  | .null => .ok cur
  | _ => .error .typeError

/-- Decode a JSON value into a Go bool field. -/
def jbool (v : Json) (cur : Bool) : Except UnmarshalError Bool :=
  match v with
  | .boolean b => .ok b
  | .null => .ok cur
  | _ => .error .typeError

/-- Decode a JSON value into a pointer-to-struct field: `null` sets the
pointer to nil; otherwise the value is unmarshalled into the pointee
(reused if already allocated, else the zero value). -/
def jptr {α : Type} (dec : Json → α → Except UnmarshalError α) (zero : α)
    (v : Json) (cur : Option α) : Except UnmarshalError (Option α) :=
  match v with
  | .null => .ok none
  | j => step (dec j (cur.getD zero)) fun x => .ok (some x)

/-- Decode every element of a JSON array. -/
def decodeElems {α : Type} (dec : Json → Except UnmarshalError α) :
    List Json → Except UnmarshalError (List α)
  | [] => .ok []
  | v :: rest =>
    step (dec v) fun x => step (decodeElems dec rest) fun xs => .ok (x :: xs)

/-- Decode a JSON value into a pointer-to-slice field (`*[]T`). -/
def jlistPtr {α : Type} (dec : Json → Except UnmarshalError α)
    (v : Json) (_cur : Option (List α)) :
    Except UnmarshalError (Option (List α)) :=
  match v with
  | .null => .ok none
  | .arr xs => step (decodeElems dec xs.toList) fun l => .ok (some l)
  | _ => .error .typeError

/-- Decode a JSON value into a slice field (`[]T`): `null` sets the
slice to nil. -/
def jslice {α : Type} (dec : Json → Except UnmarshalError α)
    (v : Json) (_cur : List α) : Except UnmarshalError (List α) :=
  match v with
  | .null => .ok []
  | .arr xs => decodeElems dec xs.toList
  | _ => .error .typeError

/-- Decode a JSON value into an embedded (non-pointer) struct field:
`null` is a no-op, otherwise unmarshal into the current value. -/
def jstruct {α : Type} (dec : Json → α → Except UnmarshalError α)
    (v : Json) (cur : α) : Except UnmarshalError α :=
  match v with
  | .null => .ok cur
  | j => dec j cur

/- ------------------------------------------------------------------
The data model of types.go (the structs reachable from Update and
APIResponse).  Field defaults are the Go zero values.
------------------------------------------------------------------ -/

/-- ResponseParameters are various errors that can be returned in
APIResponse. -/
structure ResponseParameters where
  migrateToChatID : Int := 0
  retryAfter : Int := 0
deriving DecidableEq

/-- User is a user on Telegram. -/
structure User where
  id : Int := 0
  firstName : GoStr := []
  lastName : GoStr := []
  userName : GoStr := []
deriving DecidableEq

/-- Chat represents a chat; `type` is the Go field `Type`. -/
structure Chat where
  id : Int := 0
  type : GoStr := []
  title : GoStr := []
  userName : GoStr := []
  firstName : GoStr := []
  lastName : GoStr := []
  allMembersAreAdmins : Bool := false
deriving DecidableEq

/-- MessageEntity is one special entity in a text message. -/
structure MessageEntity where
  type : GoStr := []
  offset : Int := 0
  length : Int := 0
  url : GoStr := []
  user : Option User := none
deriving DecidableEq

/-- PhotoSize is one size of a photo or a file / sticker thumbnail. -/
structure PhotoSize where
  fileID : GoStr := []
  width : Int := 0
  height : Int := 0
  fileSize : Int := 0
deriving DecidableEq

/-- Audio is an audio file to be treated as music. -/
structure Audio where
  fileID : GoStr := []
  duration : Int := 0
  performer : GoStr := []
  title : GoStr := []
  mimeType : GoStr := []
  fileSize : Int := 0
deriving DecidableEq

/-- Document is a general file. -/
structure Document where
  fileID : GoStr := []
  thumbnail : Option PhotoSize := none
  fileName : GoStr := []
  mimeType : GoStr := []
  fileSize : Int := 0
deriving DecidableEq

/-- Sticker represents a sticker. -/
structure Sticker where
  fileID : GoStr := []
  width : Int := 0
  height : Int := 0
  thumbnail : Option PhotoSize := none
  emoji : GoStr := []
  fileSize : Int := 0
deriving DecidableEq

/-- Video represents a video file. -/
structure Video where
  fileID : GoStr := []
  width : Int := 0
  height : Int := 0
  duration : Int := 0
  thumbnail : Option PhotoSize := none
  mimeType : GoStr := []
  fileSize : Int := 0
deriving DecidableEq

/-- Voice represents a voice note. -/
structure Voice where
  fileID : GoStr := []
  duration : Int := 0
  mimeType : GoStr := []
  fileSize : Int := 0
deriving DecidableEq

/-- Contact represents a phone contact. -/
structure Contact where
  phoneNumber : GoStr := []
  firstName : GoStr := []
  lastName : GoStr := []
  userID : Int := 0
deriving DecidableEq

/-- Location is a point on the map.  The two float64 coordinates are
modelled as integers; no claim involves floating-point arithmetic. -/
structure Location where
  longitude : Int := 0
  latitude : Int := 0
deriving DecidableEq

/-- Venue represents a venue. -/
structure Venue where
  location : Location := {}
  title : GoStr := []
  address : GoStr := []
  foursquareID : GoStr := []
deriving DecidableEq

/-- Animation is a GIF animation demonstrating a game. -/
structure Animation where
  fileID : GoStr := []
  thumb : PhotoSize := {}
  fileName : GoStr := []
  mimeType : GoStr := []
  fileSize : Int := 0
deriving DecidableEq

/-- Game is a game within Telegram. -/
structure Game where
  title : GoStr := []
  description : GoStr := []
  photo : List PhotoSize := []
  text : GoStr := []
  textEntities : List MessageEntity := []
  animation : Animation := {}
deriving DecidableEq

/-- The fields of Message, parameterised by the type used for the two
self-referential `*Message` fields (`reply_to_message` and
`pinned_message`). -/
structure MessageF (M : Type) where
  messageId : Int := 0
  from_ : Option User := none
  date : Int := 0
  chat : Option Chat := none
  forwardFrom : Option User := none
  forwardFromChat : Option Chat := none
  forwardFromMessageID : Int := 0
  forwardDate : Int := 0
  replyToMessage : Option M := none
  editDate : Int := 0
  text : GoStr := []
  entities : Option (List MessageEntity) := none
  audio : Option Audio := none
  document : Option Document := none
  game : Option Game := none
  photo : Option (List PhotoSize) := none
  sticker : Option Sticker := none
  video : Option Video := none
  voice : Option Voice := none
  caption : GoStr := []
  contact : Option Contact := none
  location : Option Location := none
  venue : Option Venue := none
  newChatMember : Option User := none
  leftChatMember : Option User := none
  newChatTitle : GoStr := []
  newChatPhoto : Option (List PhotoSize) := none
  deleteChatPhoto : Bool := false
  groupChatCreated : Bool := false
  superGroupChatCreated : Bool := false
  channelChatCreated : Bool := false
  migrateToChatID : Int := 0
  migrateFromChatID : Int := 0
  pinnedMessage : Option M := none

/-- Message is returned by almost every request; it may recursively
contain further messages through `reply_to_message` and
`pinned_message`. -/
inductive Message where
  | mk : MessageF Message → Message

/-- The fields of a message. -/
def Message.data : Message → MessageF Message
  | .mk d => d

/-- The Go zero value of Message. -/
def Message.zero : Message := .mk {}

/-- InlineQuery is a query from Telegram for an inline request. -/
structure InlineQuery where
  id : GoStr := []
  from_ : Option User := none
  location : Option Location := none
  query : GoStr := []
  offset : GoStr := []
deriving DecidableEq

/-- ChosenInlineResult is an inline-query result chosen by the user. -/
structure ChosenInlineResult where
  resultID : GoStr := []
  from_ : Option User := none
  location : Option Location := none
  inlineMessageID : GoStr := []
  query : GoStr := []
deriving DecidableEq

/-- CallbackQuery is data sent when a keyboard button with callback
data is clicked. -/
structure CallbackQuery where
  id : GoStr := []
  from_ : Option User := none
  message : Option Message := none
  inlineMessageID : GoStr := []
  chatInstance : GoStr := []
  data : GoStr := []
  gameShortName : GoStr := []

/-- Update represents an incoming update.  The source comments say that
only one of the optional parameters can be present in any given update;
nothing in the code enforces it. -/
structure Update where
  updateId : Int := 0
  message : Option Message := none
  editedMessage : Option Message := none
  channelPost : Option Message := none
  editedChannelPost : Option Message := none
  inlineQuery : Option InlineQuery := none
  chosenInlineResult : Option ChosenInlineResult := none
  callbackQuery : Option CallbackQuery := none

/-- APIResponse is a response from the Telegram API with the result
stored raw.  `result` is Go's json.RawMessage: nil (none) when the key
is absent, otherwise the raw value, `null` included. -/
structure APIResponse where
  ok : Bool := false
  result : Option Json := none
  errorCode : Int := 0
  description : GoStr := []
  parameters : Option ResponseParameters := none
deriving DecidableEq

/- ------------------------------------------------------------------
encoding/json's Unmarshal against the struct tags of types.go.
Each struct gets a fold over the object's members (`...Fields`), an
unmarshal-into-existing-value entry (`...Into`, Go merges into an
existing allocation) and a zero-value entry.
------------------------------------------------------------------ -/

/-- Member fold for User (tags: id, first_name, last_name, username). -/
def unmarshalUserFields : List (GoStr × Json) → User → Except UnmarshalError User
  | [], acc => .ok acc
  | (k, v) :: rest, acc =>
    if keyMatch k (gs "id") then
      step (jint v acc.id) fun x => unmarshalUserFields rest { acc with id := x }
    else if keyMatch k (gs "first_name") then
      step (jstr v acc.firstName) fun x => unmarshalUserFields rest { acc with firstName := x }
    else if keyMatch k (gs "last_name") then
      step (jstr v acc.lastName) fun x => unmarshalUserFields rest { acc with lastName := x }
    else if keyMatch k (gs "username") then
      step (jstr v acc.userName) fun x => unmarshalUserFields rest { acc with userName := x }
    else unmarshalUserFields rest acc

/-- Unmarshal a JSON value into an existing User. -/
def unmarshalUserInto (j : Json) (x : User) : Except UnmarshalError User :=
  match j with
  | .obj fs => unmarshalUserFields fs.toList x
  | .null => .ok x
  | _ => .error .typeError

/-- Member fold for Chat. -/
def unmarshalChatFields : List (GoStr × Json) → Chat → Except UnmarshalError Chat
  | [], acc => .ok acc
  | (k, v) :: rest, acc =>
    if keyMatch k (gs "id") then
      step (jint v acc.id) fun x => unmarshalChatFields rest { acc with id := x }
    else if keyMatch k (gs "type") then
      step (jstr v acc.type) fun x => unmarshalChatFields rest { acc with type := x }
    else if keyMatch k (gs "title") then
      step (jstr v acc.title) fun x => unmarshalChatFields rest { acc with title := x }
    else if keyMatch k (gs "username") then
      step (jstr v acc.userName) fun x => unmarshalChatFields rest { acc with userName := x }
    else if keyMatch k (gs "first_name") then
      step (jstr v acc.firstName) fun x => unmarshalChatFields rest { acc with firstName := x }
    else if keyMatch k (gs "last_name") then
      step (jstr v acc.lastName) fun x => unmarshalChatFields rest { acc with lastName := x }
    else if keyMatch k (gs "all_members_are_administrators") then
      step (jbool v acc.allMembersAreAdmins) fun x =>
        unmarshalChatFields rest { acc with allMembersAreAdmins := x }
    else unmarshalChatFields rest acc

/-- Unmarshal a JSON value into an existing Chat. -/
def unmarshalChatInto (j : Json) (x : Chat) : Except UnmarshalError Chat :=
  match j with
  | .obj fs => unmarshalChatFields fs.toList x
  | .null => .ok x
  | _ => .error .typeError

/-- Member fold for PhotoSize. -/
def unmarshalPhotoSizeFields : List (GoStr × Json) → PhotoSize → Except UnmarshalError PhotoSize
  | [], acc => .ok acc
  | (k, v) :: rest, acc =>
    if keyMatch k (gs "file_id") then
      step (jstr v acc.fileID) fun x => unmarshalPhotoSizeFields rest { acc with fileID := x }
    else if keyMatch k (gs "width") then
      step (jint v acc.width) fun x => unmarshalPhotoSizeFields rest { acc with width := x }
    else if keyMatch k (gs "height") then
      step (jint v acc.height) fun x => unmarshalPhotoSizeFields rest { acc with height := x }
    else if keyMatch k (gs "file_size") then
      step (jint v acc.fileSize) fun x => unmarshalPhotoSizeFields rest { acc with fileSize := x }
    else unmarshalPhotoSizeFields rest acc

/-- Unmarshal a JSON value into an existing PhotoSize. -/
def unmarshalPhotoSizeInto (j : Json) (x : PhotoSize) : Except UnmarshalError PhotoSize :=
  match j with
  | .obj fs => unmarshalPhotoSizeFields fs.toList x
  | .null => .ok x
  | _ => .error .typeError

/-- Unmarshal one PhotoSize element of a JSON array. -/
def unmarshalPhotoSize (j : Json) : Except UnmarshalError PhotoSize :=
  unmarshalPhotoSizeInto j {}

/-- Member fold for MessageEntity. -/
def unmarshalMessageEntityFields :
    List (GoStr × Json) → MessageEntity → Except UnmarshalError MessageEntity
  | [], acc => .ok acc
  | (k, v) :: rest, acc =>
    if keyMatch k (gs "type") then
      step (jstr v acc.type) fun x => unmarshalMessageEntityFields rest { acc with type := x }
    else if keyMatch k (gs "offset") then
      step (jint v acc.offset) fun x => unmarshalMessageEntityFields rest { acc with offset := x }
    else if keyMatch k (gs "length") then
      step (jint v acc.length) fun x => unmarshalMessageEntityFields rest { acc with length := x }
    else if keyMatch k (gs "url") then
      step (jstr v acc.url) fun x => unmarshalMessageEntityFields rest { acc with url := x }
    else if keyMatch k (gs "user") then
      step (jptr unmarshalUserInto {} v acc.user) fun x =>
        unmarshalMessageEntityFields rest { acc with user := x }
    else unmarshalMessageEntityFields rest acc

/-- Unmarshal a JSON value into an existing MessageEntity. -/
def unmarshalMessageEntityInto (j : Json) (x : MessageEntity) :
    Except UnmarshalError MessageEntity :=
  match j with
  | .obj fs => unmarshalMessageEntityFields fs.toList x
  | .null => .ok x
  | _ => .error .typeError

/-- Unmarshal one MessageEntity element of a JSON array. -/
def unmarshalMessageEntity (j : Json) : Except UnmarshalError MessageEntity :=
  unmarshalMessageEntityInto j {}

/-- Member fold for Audio. -/
def unmarshalAudioFields : List (GoStr × Json) → Audio → Except UnmarshalError Audio
  | [], acc => .ok acc
  | (k, v) :: rest, acc =>
    if keyMatch k (gs "file_id") then
      step (jstr v acc.fileID) fun x => unmarshalAudioFields rest { acc with fileID := x }
    else if keyMatch k (gs "duration") then
      step (jint v acc.duration) fun x => unmarshalAudioFields rest { acc with duration := x }
    else if keyMatch k (gs "performer") then
      step (jstr v acc.performer) fun x => unmarshalAudioFields rest { acc with performer := x }
    else if keyMatch k (gs "title") then
      step (jstr v acc.title) fun x => unmarshalAudioFields rest { acc with title := x }
    else if keyMatch k (gs "mime_type") then
      step (jstr v acc.mimeType) fun x => unmarshalAudioFields rest { acc with mimeType := x }
    else if keyMatch k (gs "file_size") then
      step (jint v acc.fileSize) fun x => unmarshalAudioFields rest { acc with fileSize := x }
    else unmarshalAudioFields rest acc

/-- Unmarshal a JSON value into an existing Audio. -/
def unmarshalAudioInto (j : Json) (x : Audio) : Except UnmarshalError Audio :=
  match j with
  | .obj fs => unmarshalAudioFields fs.toList x
  | .null => .ok x
  | _ => .error .typeError

/-- Member fold for Document. -/
def unmarshalDocumentFields : List (GoStr × Json) → Document → Except UnmarshalError Document
  | [], acc => .ok acc
  | (k, v) :: rest, acc =>
    if keyMatch k (gs "file_id") then
      step (jstr v acc.fileID) fun x => unmarshalDocumentFields rest { acc with fileID := x }
    else if keyMatch k (gs "thumb") then
      step (jptr unmarshalPhotoSizeInto {} v acc.thumbnail) fun x =>
        unmarshalDocumentFields rest { acc with thumbnail := x }
    else if keyMatch k (gs "file_name") then
      step (jstr v acc.fileName) fun x => unmarshalDocumentFields rest { acc with fileName := x }
    else if keyMatch k (gs "mime_type") then
      step (jstr v acc.mimeType) fun x => unmarshalDocumentFields rest { acc with mimeType := x }
    else if keyMatch k (gs "file_size") then
      step (jint v acc.fileSize) fun x => unmarshalDocumentFields rest { acc with fileSize := x }
    else unmarshalDocumentFields rest acc

/-- Unmarshal a JSON value into an existing Document. -/
def unmarshalDocumentInto (j : Json) (x : Document) : Except UnmarshalError Document :=
  match j with
  | .obj fs => unmarshalDocumentFields fs.toList x
  | .null => .ok x
  | _ => .error .typeError

/-- Member fold for Sticker. -/
def unmarshalStickerFields : List (GoStr × Json) → Sticker → Except UnmarshalError Sticker
  | [], acc => .ok acc
  | (k, v) :: rest, acc =>
    if keyMatch k (gs "file_id") then
      step (jstr v acc.fileID) fun x => unmarshalStickerFields rest { acc with fileID := x }
    else if keyMatch k (gs "width") then
      step (jint v acc.width) fun x => unmarshalStickerFields rest { acc with width := x }
    else if keyMatch k (gs "height") then
      step (jint v acc.height) fun x => unmarshalStickerFields rest { acc with height := x }
    else if keyMatch k (gs "thumb") then
      step (jptr unmarshalPhotoSizeInto {} v acc.thumbnail) fun x =>
        unmarshalStickerFields rest { acc with thumbnail := x }
    else if keyMatch k (gs "emoji") then
      step (jstr v acc.emoji) fun x => unmarshalStickerFields rest { acc with emoji := x }
    else if keyMatch k (gs "file_size") then
      step (jint v acc.fileSize) fun x => unmarshalStickerFields rest { acc with fileSize := x }
    else unmarshalStickerFields rest acc

/-- Unmarshal a JSON value into an existing Sticker. -/
def unmarshalStickerInto (j : Json) (x : Sticker) : Except UnmarshalError Sticker :=
  match j with
  | .obj fs => unmarshalStickerFields fs.toList x
  | .null => .ok x
  | _ => .error .typeError

/-- Member fold for Video. -/
def unmarshalVideoFields : List (GoStr × Json) → Video → Except UnmarshalError Video
  | [], acc => .ok acc
  | (k, v) :: rest, acc =>
    if keyMatch k (gs "file_id") then
      step (jstr v acc.fileID) fun x => unmarshalVideoFields rest { acc with fileID := x }
    else if keyMatch k (gs "width") then
      step (jint v acc.width) fun x => unmarshalVideoFields rest { acc with width := x }
    else if keyMatch k (gs "height") then
      step (jint v acc.height) fun x => unmarshalVideoFields rest { acc with height := x }
    else if keyMatch k (gs "duration") then
      step (jint v acc.duration) fun x => unmarshalVideoFields rest { acc with duration := x }
    else if keyMatch k (gs "thumb") then
      step (jptr unmarshalPhotoSizeInto {} v acc.thumbnail) fun x =>
        unmarshalVideoFields rest { acc with thumbnail := x }
    else if keyMatch k (gs "mime_type") then
      step (jstr v acc.mimeType) fun x => unmarshalVideoFields rest { acc with mimeType := x }
    else if keyMatch k (gs "file_size") then
      step (jint v acc.fileSize) fun x => unmarshalVideoFields rest { acc with fileSize := x }
    else unmarshalVideoFields rest acc

/-- Unmarshal a JSON value into an existing Video. -/
def unmarshalVideoInto (j : Json) (x : Video) : Except UnmarshalError Video :=
  match j with
  | .obj fs => unmarshalVideoFields fs.toList x
  | .null => .ok x
  | _ => .error .typeError

/-- Member fold for Voice. -/
def unmarshalVoiceFields : List (GoStr × Json) → Voice → Except UnmarshalError Voice
  | [], acc => .ok acc
  | (k, v) :: rest, acc =>
    if keyMatch k (gs "file_id") then
      step (jstr v acc.fileID) fun x => unmarshalVoiceFields rest { acc with fileID := x }
    else if keyMatch k (gs "duration") then
      step (jint v acc.duration) fun x => unmarshalVoiceFields rest { acc with duration := x }
    else if keyMatch k (gs "mime_type") then
      step (jstr v acc.mimeType) fun x => unmarshalVoiceFields rest { acc with mimeType := x }
    else if keyMatch k (gs "file_size") then
      step (jint v acc.fileSize) fun x => unmarshalVoiceFields rest { acc with fileSize := x }
    else unmarshalVoiceFields rest acc

/-- Unmarshal a JSON value into an existing Voice. -/
def unmarshalVoiceInto (j : Json) (x : Voice) : Except UnmarshalError Voice :=
  match j with
  | .obj fs => unmarshalVoiceFields fs.toList x
  | .null => .ok x
  | _ => .error .typeError

/-- Member fold for Contact. -/
def unmarshalContactFields : List (GoStr × Json) → Contact → Except UnmarshalError Contact
  | [], acc => .ok acc
  | (k, v) :: rest, acc =>
    if keyMatch k (gs "phone_number") then
      step (jstr v acc.phoneNumber) fun x => unmarshalContactFields rest { acc with phoneNumber := x }
    else if keyMatch k (gs "first_name") then
      step (jstr v acc.firstName) fun x => unmarshalContactFields rest { acc with firstName := x }
    else if keyMatch k (gs "last_name") then
      step (jstr v acc.lastName) fun x => unmarshalContactFields rest { acc with lastName := x }
    else if keyMatch k (gs "user_id") then
      step (jint v acc.userID) fun x => unmarshalContactFields rest { acc with userID := x }
    else unmarshalContactFields rest acc

/-- Unmarshal a JSON value into an existing Contact. -/
def unmarshalContactInto (j : Json) (x : Contact) : Except UnmarshalError Contact :=
  match j with
  | .obj fs => unmarshalContactFields fs.toList x
  | .null => .ok x
  | _ => .error .typeError

/-- Member fold for Location (coordinates modelled as integers). -/
def unmarshalLocationFields : List (GoStr × Json) → Location → Except UnmarshalError Location
  | [], acc => .ok acc
  | (k, v) :: rest, acc =>
    if keyMatch k (gs "longitude") then
      step (jint v acc.longitude) fun x => unmarshalLocationFields rest { acc with longitude := x }
    else if keyMatch k (gs "latitude") then
      step (jint v acc.latitude) fun x => unmarshalLocationFields rest { acc with latitude := x }
    else unmarshalLocationFields rest acc

/-- Unmarshal a JSON value into an existing Location. -/
def unmarshalLocationInto (j : Json) (x : Location) : Except UnmarshalError Location :=
  match j with
  | .obj fs => unmarshalLocationFields fs.toList x
  | .null => .ok x
  | _ => .error .typeError

/-- Member fold for Venue. -/
def unmarshalVenueFields : List (GoStr × Json) → Venue → Except UnmarshalError Venue
  | [], acc => .ok acc
  | (k, v) :: rest, acc =>
    if keyMatch k (gs "location") then
      step (jstruct unmarshalLocationInto v acc.location) fun x =>
        unmarshalVenueFields rest { acc with location := x }
    else if keyMatch k (gs "title") then
      step (jstr v acc.title) fun x => unmarshalVenueFields rest { acc with title := x }
    else if keyMatch k (gs "address") then
      step (jstr v acc.address) fun x => unmarshalVenueFields rest { acc with address := x }
    else if keyMatch k (gs "foursquare_id") then
      step (jstr v acc.foursquareID) fun x => unmarshalVenueFields rest { acc with foursquareID := x }
    else unmarshalVenueFields rest acc

/-- Unmarshal a JSON value into an existing Venue. -/
def unmarshalVenueInto (j : Json) (x : Venue) : Except UnmarshalError Venue :=
  match j with
  | .obj fs => unmarshalVenueFields fs.toList x
  | .null => .ok x
  | _ => .error .typeError

/-- Member fold for Animation. -/
def unmarshalAnimationFields : List (GoStr × Json) → Animation → Except UnmarshalError Animation
  | [], acc => .ok acc
  | (k, v) :: rest, acc =>
    if keyMatch k (gs "file_id") then
      step (jstr v acc.fileID) fun x => unmarshalAnimationFields rest { acc with fileID := x }
    else if keyMatch k (gs "thumb") then
      step (jstruct unmarshalPhotoSizeInto v acc.thumb) fun x =>
        unmarshalAnimationFields rest { acc with thumb := x }
    else if keyMatch k (gs "file_name") then
      step (jstr v acc.fileName) fun x => unmarshalAnimationFields rest { acc with fileName := x }
    else if keyMatch k (gs "mime_type") then
      step (jstr v acc.mimeType) fun x => unmarshalAnimationFields rest { acc with mimeType := x }
    else if keyMatch k (gs "file_size") then
      step (jint v acc.fileSize) fun x => unmarshalAnimationFields rest { acc with fileSize := x }
    else unmarshalAnimationFields rest acc

/-- Unmarshal a JSON value into an existing Animation. -/
def unmarshalAnimationInto (j : Json) (x : Animation) : Except UnmarshalError Animation :=
  match j with
  | .obj fs => unmarshalAnimationFields fs.toList x
  | .null => .ok x
  | _ => .error .typeError

/-- Member fold for Game. -/
def unmarshalGameFields : List (GoStr × Json) → Game → Except UnmarshalError Game
  | [], acc => .ok acc
  | (k, v) :: rest, acc =>
    if keyMatch k (gs "title") then
      step (jstr v acc.title) fun x => unmarshalGameFields rest { acc with title := x }
    else if keyMatch k (gs "description") then
      step (jstr v acc.description) fun x => unmarshalGameFields rest { acc with description := x }
    else if keyMatch k (gs "photo") then
      step (jslice unmarshalPhotoSize v acc.photo) fun x =>
        unmarshalGameFields rest { acc with photo := x }
    else if keyMatch k (gs "text") then
      step (jstr v acc.text) fun x => unmarshalGameFields rest { acc with text := x }
    else if keyMatch k (gs "text_entities") then
      step (jslice unmarshalMessageEntity v acc.textEntities) fun x =>
        unmarshalGameFields rest { acc with textEntities := x }
    else if keyMatch k (gs "animation") then
      step (jstruct unmarshalAnimationInto v acc.animation) fun x =>
        unmarshalGameFields rest { acc with animation := x }
    else unmarshalGameFields rest acc

/-- Unmarshal a JSON value into an existing Game. -/
def unmarshalGameInto (j : Json) (x : Game) : Except UnmarshalError Game :=
  match j with
  | .obj fs => unmarshalGameFields fs.toList x
  | .null => .ok x
  | _ => .error .typeError

/- The Message decoder recurses into `reply_to_message` and
`pinned_message`, exactly as encoding/json's reflection-driven decode
recurses into the `*Message` fields; the recursion is structural on the
JSON tree.  The two recursive member branches spell out the pointer
rule of `jptr` (null sets nil, otherwise unmarshal into the pointee). -/
mutual

/-- Unmarshal a JSON value into an existing Message. -/
def unmarshalMessageInto : Json → Message → Except UnmarshalError Message
  | .obj fs, .mk d =>
    (match unmarshalMessageFields fs d with
     | .ok d => .ok (.mk d)
     | .error e => .error e)
  | .null, m => .ok m
  | _, _ => .error .typeError

/-- Member fold for Message over all 34 tagged fields of types.go. -/
def unmarshalMessageFields :
    JsonFields → MessageF Message → Except UnmarshalError (MessageF Message)
  | .nil, acc => .ok acc
  | .cons k v rest, acc =>
    if keyMatch k (gs "message_id") then
      step (jint v acc.messageId) fun x => unmarshalMessageFields rest { acc with messageId := x }
    else if keyMatch k (gs "from") then
      step (jptr unmarshalUserInto {} v acc.from_) fun x =>
        unmarshalMessageFields rest { acc with from_ := x }
    else if keyMatch k (gs "date") then
      step (jint v acc.date) fun x => unmarshalMessageFields rest { acc with date := x }
    else if keyMatch k (gs "chat") then
      step (jptr unmarshalChatInto {} v acc.chat) fun x =>
        unmarshalMessageFields rest { acc with chat := x }
    else if keyMatch k (gs "forward_from") then
      step (jptr unmarshalUserInto {} v acc.forwardFrom) fun x =>
        unmarshalMessageFields rest { acc with forwardFrom := x }
    else if keyMatch k (gs "forward_from_chat") then
      step (jptr unmarshalChatInto {} v acc.forwardFromChat) fun x =>
        unmarshalMessageFields rest { acc with forwardFromChat := x }
    else if keyMatch k (gs "forward_from_message_id") then
      step (jint v acc.forwardFromMessageID) fun x =>
        unmarshalMessageFields rest { acc with forwardFromMessageID := x }
    else if keyMatch k (gs "forward_date") then
      step (jint v acc.forwardDate) fun x => unmarshalMessageFields rest { acc with forwardDate := x }
    else if keyMatch k (gs "reply_to_message") then
      match v with
      | .null => unmarshalMessageFields rest { acc with replyToMessage := none }
      | jv =>
        (match unmarshalMessageInto jv (acc.replyToMessage.getD Message.zero) with
         | .ok m => unmarshalMessageFields rest { acc with replyToMessage := some m }
         | .error e => .error e)
    else if keyMatch k (gs "edit_date") then
      step (jint v acc.editDate) fun x => unmarshalMessageFields rest { acc with editDate := x }
    else if keyMatch k (gs "text") then
      step (jstr v acc.text) fun x => unmarshalMessageFields rest { acc with text := x }
    else if keyMatch k (gs "entities") then
      step (jlistPtr unmarshalMessageEntity v acc.entities) fun x =>
        unmarshalMessageFields rest { acc with entities := x }
    else if keyMatch k (gs "audio") then
      step (jptr unmarshalAudioInto {} v acc.audio) fun x =>
        unmarshalMessageFields rest { acc with audio := x }
    else if keyMatch k (gs "document") then
      step (jptr unmarshalDocumentInto {} v acc.document) fun x =>
        unmarshalMessageFields rest { acc with document := x }
    else if keyMatch k (gs "game") then
      step (jptr unmarshalGameInto {} v acc.game) fun x =>
        unmarshalMessageFields rest { acc with game := x }
    else if keyMatch k (gs "photo") then
      step (jlistPtr unmarshalPhotoSize v acc.photo) fun x =>
        unmarshalMessageFields rest { acc with photo := x }
    else if keyMatch k (gs "sticker") then
      step (jptr unmarshalStickerInto {} v acc.sticker) fun x =>
        unmarshalMessageFields rest { acc with sticker := x }
    else if keyMatch k (gs "video") then
      step (jptr unmarshalVideoInto {} v acc.video) fun x =>
        unmarshalMessageFields rest { acc with video := x }
    else if keyMatch k (gs "voice") then
      step (jptr unmarshalVoiceInto {} v acc.voice) fun x =>
        unmarshalMessageFields rest { acc with voice := x }
    else if keyMatch k (gs "caption") then
      step (jstr v acc.caption) fun x => unmarshalMessageFields rest { acc with caption := x }
    else if keyMatch k (gs "contact") then
      step (jptr unmarshalContactInto {} v acc.contact) fun x =>
        unmarshalMessageFields rest { acc with contact := x }
    else if keyMatch k (gs "location") then
      step (jptr unmarshalLocationInto {} v acc.location) fun x =>
        unmarshalMessageFields rest { acc with location := x }
    else if keyMatch k (gs "venue") then
      step (jptr unmarshalVenueInto {} v acc.venue) fun x =>
        unmarshalMessageFields rest { acc with venue := x }
    else if keyMatch k (gs "new_chat_member") then
      step (jptr unmarshalUserInto {} v acc.newChatMember) fun x =>
        unmarshalMessageFields rest { acc with newChatMember := x }
    else if keyMatch k (gs "left_chat_member") then
      step (jptr unmarshalUserInto {} v acc.leftChatMember) fun x =>
        unmarshalMessageFields rest { acc with leftChatMember := x }
    else if keyMatch k (gs "new_chat_title") then
      step (jstr v acc.newChatTitle) fun x =>
        unmarshalMessageFields rest { acc with newChatTitle := x }
    else if keyMatch k (gs "new_chat_photo") then
      step (jlistPtr unmarshalPhotoSize v acc.newChatPhoto) fun x =>
        unmarshalMessageFields rest { acc with newChatPhoto := x }
    else if keyMatch k (gs "delete_chat_photo") then
      step (jbool v acc.deleteChatPhoto) fun x =>
        unmarshalMessageFields rest { acc with deleteChatPhoto := x }
    else if keyMatch k (gs "group_chat_created") then
      step (jbool v acc.groupChatCreated) fun x =>
        unmarshalMessageFields rest { acc with groupChatCreated := x }
    else if keyMatch k (gs "supergroup_chat_created") then
      step (jbool v acc.superGroupChatCreated) fun x =>
        unmarshalMessageFields rest { acc with superGroupChatCreated := x }
    else if keyMatch k (gs "channel_chat_created") then
      step (jbool v acc.channelChatCreated) fun x =>
        unmarshalMessageFields rest { acc with channelChatCreated := x }
    else if keyMatch k (gs "migrate_to_chat_id") then
      step (jint v acc.migrateToChatID) fun x =>
        unmarshalMessageFields rest { acc with migrateToChatID := x }
    else if keyMatch k (gs "migrate_from_chat_id") then
      step (jint v acc.migrateFromChatID) fun x =>
        unmarshalMessageFields rest { acc with migrateFromChatID := x }
    else if keyMatch k (gs "pinned_message") then
      match v with
      | .null => unmarshalMessageFields rest { acc with pinnedMessage := none }
      | jv =>
        (match unmarshalMessageInto jv (acc.pinnedMessage.getD Message.zero) with
         | .ok m => unmarshalMessageFields rest { acc with pinnedMessage := some m }
         | .error e => .error e)
    else unmarshalMessageFields rest acc

end

/-- Unmarshal a JSON value into a fresh Message (Go decodes into a
newly allocated zero Message when the pointer was nil). -/
def unmarshalMessage (j : Json) : Except UnmarshalError Message :=
  unmarshalMessageInto j Message.zero

/-- Member fold for InlineQuery. -/
def unmarshalInlineQueryFields :
    List (GoStr × Json) → InlineQuery → Except UnmarshalError InlineQuery
  | [], acc => .ok acc
  | (k, v) :: rest, acc =>
    if keyMatch k (gs "id") then
      step (jstr v acc.id) fun x => unmarshalInlineQueryFields rest { acc with id := x }
    else if keyMatch k (gs "from") then
      step (jptr unmarshalUserInto {} v acc.from_) fun x =>
        unmarshalInlineQueryFields rest { acc with from_ := x }
    else if keyMatch k (gs "location") then
      step (jptr unmarshalLocationInto {} v acc.location) fun x =>
        unmarshalInlineQueryFields rest { acc with location := x }
    else if keyMatch k (gs "query") then
      step (jstr v acc.query) fun x => unmarshalInlineQueryFields rest { acc with query := x }
    else if keyMatch k (gs "offset") then
      step (jstr v acc.offset) fun x => unmarshalInlineQueryFields rest { acc with offset := x }
    else unmarshalInlineQueryFields rest acc

/-- Unmarshal a JSON value into an existing InlineQuery. -/
def unmarshalInlineQueryInto (j : Json) (x : InlineQuery) : Except UnmarshalError InlineQuery :=
  match j with
  | .obj fs => unmarshalInlineQueryFields fs.toList x
  | .null => .ok x
  | _ => .error .typeError

/-- Member fold for ChosenInlineResult. -/
def unmarshalChosenInlineResultFields :
    List (GoStr × Json) → ChosenInlineResult → Except UnmarshalError ChosenInlineResult
  | [], acc => .ok acc
  | (k, v) :: rest, acc =>
    if keyMatch k (gs "result_id") then
      step (jstr v acc.resultID) fun x =>
        unmarshalChosenInlineResultFields rest { acc with resultID := x }
    else if keyMatch k (gs "from") then
      step (jptr unmarshalUserInto {} v acc.from_) fun x =>
        unmarshalChosenInlineResultFields rest { acc with from_ := x }
    else if keyMatch k (gs "location") then
      step (jptr unmarshalLocationInto {} v acc.location) fun x =>
        unmarshalChosenInlineResultFields rest { acc with location := x }
    else if keyMatch k (gs "inline_message_id") then
      step (jstr v acc.inlineMessageID) fun x =>
        unmarshalChosenInlineResultFields rest { acc with inlineMessageID := x }
    else if keyMatch k (gs "query") then
      step (jstr v acc.query) fun x => unmarshalChosenInlineResultFields rest { acc with query := x }
    else unmarshalChosenInlineResultFields rest acc

/-- Unmarshal a JSON value into an existing ChosenInlineResult. -/
def unmarshalChosenInlineResultInto (j : Json) (x : ChosenInlineResult) :
    Except UnmarshalError ChosenInlineResult :=
  match j with
  | .obj fs => unmarshalChosenInlineResultFields fs.toList x
  | .null => .ok x
  | _ => .error .typeError

/-- Member fold for CallbackQuery. -/
def unmarshalCallbackQueryFields :
    List (GoStr × Json) → CallbackQuery → Except UnmarshalError CallbackQuery
  | [], acc => .ok acc
  | (k, v) :: rest, acc =>
    if keyMatch k (gs "id") then
      step (jstr v acc.id) fun x => unmarshalCallbackQueryFields rest { acc with id := x }
    else if keyMatch k (gs "from") then
      step (jptr unmarshalUserInto {} v acc.from_) fun x =>
        unmarshalCallbackQueryFields rest { acc with from_ := x }
    else if keyMatch k (gs "message") then
      step (jptr unmarshalMessageInto Message.zero v acc.message) fun x =>
        unmarshalCallbackQueryFields rest { acc with message := x }
    else if keyMatch k (gs "inline_message_id") then
      step (jstr v acc.inlineMessageID) fun x =>
        unmarshalCallbackQueryFields rest { acc with inlineMessageID := x }
    else if keyMatch k (gs "chat_instance") then
      step (jstr v acc.chatInstance) fun x =>
        unmarshalCallbackQueryFields rest { acc with chatInstance := x }
    else if keyMatch k (gs "data") then
      step (jstr v acc.data) fun x => unmarshalCallbackQueryFields rest { acc with data := x }
    else if keyMatch k (gs "game_short_name") then
      step (jstr v acc.gameShortName) fun x =>
        unmarshalCallbackQueryFields rest { acc with gameShortName := x }
    else unmarshalCallbackQueryFields rest acc

/-- Unmarshal a JSON value into an existing CallbackQuery. -/
def unmarshalCallbackQueryInto (j : Json) (x : CallbackQuery) :
    Except UnmarshalError CallbackQuery :=
  match j with
  | .obj fs => unmarshalCallbackQueryFields fs.toList x
  | .null => .ok x
  | _ => .error .typeError

/-- Unmarshal a JSON value into a fresh CallbackQuery. -/
def unmarshalCallbackQuery (j : Json) : Except UnmarshalError CallbackQuery :=
  unmarshalCallbackQueryInto j {}

/-- Member fold for Update: update_id plus the seven optional
sub-payload pointers.  Every recognized member present in the object is
decoded and populated; unrecognized members are skipped. -/
def unmarshalUpdateFields : List (GoStr × Json) → Update → Except UnmarshalError Update
  | [], acc => .ok acc
  | (k, v) :: rest, acc =>
    if keyMatch k (gs "update_id") then
      step (jint v acc.updateId) fun x => unmarshalUpdateFields rest { acc with updateId := x }
    else if keyMatch k (gs "message") then
      step (jptr unmarshalMessageInto Message.zero v acc.message) fun x =>
        unmarshalUpdateFields rest { acc with message := x }
    else if keyMatch k (gs "edited_message") then
      step (jptr unmarshalMessageInto Message.zero v acc.editedMessage) fun x =>
        unmarshalUpdateFields rest { acc with editedMessage := x }
    else if keyMatch k (gs "channel_post") then
      step (jptr unmarshalMessageInto Message.zero v acc.channelPost) fun x =>
        unmarshalUpdateFields rest { acc with channelPost := x }
    else if keyMatch k (gs "edited_channel_post") then
      step (jptr unmarshalMessageInto Message.zero v acc.editedChannelPost) fun x =>
        unmarshalUpdateFields rest { acc with editedChannelPost := x }
    else if keyMatch k (gs "inline_query") then
      step (jptr unmarshalInlineQueryInto {} v acc.inlineQuery) fun x =>
        unmarshalUpdateFields rest { acc with inlineQuery := x }
    else if keyMatch k (gs "chosen_inline_result") then
      step (jptr unmarshalChosenInlineResultInto {} v acc.chosenInlineResult) fun x =>
        unmarshalUpdateFields rest { acc with chosenInlineResult := x }
    else if keyMatch k (gs "callback_query") then
      step (jptr unmarshalCallbackQueryInto {} v acc.callbackQuery) fun x =>
        unmarshalUpdateFields rest { acc with callbackQuery := x }
    else unmarshalUpdateFields rest acc

/-- Unmarshal a JSON value into an existing Update. -/
def unmarshalUpdateInto (j : Json) (x : Update) : Except UnmarshalError Update :=
  match j with
  | .obj fs => unmarshalUpdateFields fs.toList x
  | .null => .ok x
  | _ => .error .typeError

/-- Decode one JSON update object, as the poll loop and the webhook
handler both do. -/
def unmarshalUpdate (j : Json) : Except UnmarshalError Update :=
  unmarshalUpdateInto j {}

/-- Member fold for ResponseParameters. -/
def unmarshalResponseParametersFields :
    List (GoStr × Json) → ResponseParameters → Except UnmarshalError ResponseParameters
  | [], acc => .ok acc
  | (k, v) :: rest, acc =>
    if keyMatch k (gs "migrate_to_chat_id") then
      step (jint v acc.migrateToChatID) fun x =>
        unmarshalResponseParametersFields rest { acc with migrateToChatID := x }
    else if keyMatch k (gs "retry_after") then
      step (jint v acc.retryAfter) fun x =>
        unmarshalResponseParametersFields rest { acc with retryAfter := x }
    else unmarshalResponseParametersFields rest acc

/-- Unmarshal a JSON value into an existing ResponseParameters. -/
def unmarshalResponseParametersInto (j : Json) (x : ResponseParameters) :
    Except UnmarshalError ResponseParameters :=
  match j with
  | .obj fs => unmarshalResponseParametersFields fs.toList x
  | .null => .ok x
  | _ => .error .typeError

/-- Member fold for APIResponse.  `result` is json.RawMessage, whose
UnmarshalJSON stores the raw value verbatim whenever the key is
present (a literal `null` included); the other members decode
independently of one another. -/
def unmarshalAPIResponseFields :
    List (GoStr × Json) → APIResponse → Except UnmarshalError APIResponse
  | [], acc => .ok acc
  | (k, v) :: rest, acc =>
    if keyMatch k (gs "ok") then
      step (jbool v acc.ok) fun x => unmarshalAPIResponseFields rest { acc with ok := x }
    else if keyMatch k (gs "result") then
      unmarshalAPIResponseFields rest { acc with result := some v }
    else if keyMatch k (gs "error_code") then
      step (jint v acc.errorCode) fun x => unmarshalAPIResponseFields rest { acc with errorCode := x }
    else if keyMatch k (gs "description") then
      step (jstr v acc.description) fun x =>
        unmarshalAPIResponseFields rest { acc with description := x }
    else if keyMatch k (gs "parameters") then
      step (jptr unmarshalResponseParametersInto {} v acc.parameters) fun x =>
        unmarshalAPIResponseFields rest { acc with parameters := x }
    else unmarshalAPIResponseFields rest acc

/-- Unmarshal a JSON value into an existing APIResponse. -/
def unmarshalAPIResponseInto (j : Json) (x : APIResponse) : Except UnmarshalError APIResponse :=
  match j with
  | .obj fs => unmarshalAPIResponseFields fs.toList x
  | .null => .ok x
  | _ => .error .typeError

/-- Decode a response envelope, as the bot's request path does before
handing the raw result bytes to the caller. -/
def unmarshalAPIResponse (j : Json) : Except UnmarshalError APIResponse :=
  unmarshalAPIResponseInto j {}

/- ------------------------------------------------------------------
Command helpers and chat predicates (types.go lines 98-210).
------------------------------------------------------------------ -/

/-- IsPrivate returns if the Chat is a private conversation. -/
def Chat.IsPrivate (c : Chat) : Bool := c.type == gs "private"

/-- IsGroup returns if the Chat is a group. -/
def Chat.IsGroup (c : Chat) : Bool := c.type == gs "group"

/-- IsSuperGroup returns if the Chat is a supergroup. -/
def Chat.IsSuperGroup (c : Chat) : Bool := c.type == gs "supergroup"

/-- IsChannel returns if the Chat is a channel. -/
def Chat.IsChannel (c : Chat) : Bool := c.type == gs "channel"

/-- strings.SplitN(s, " ", 2): at most two parts, split at the first
space. -/
def splitN2 (s : GoStr) : List GoStr :=
  if s.any (· == ' ') then
    [s.takeWhile (· ≠ ' '), (s.dropWhile (· ≠ ' ')).drop 1]
  else [s]

/-- IsCommand returns true if message starts with '/'
(`m.Text != "" && m.Text[0] == '/'`). -/
def Message.IsCommand (m : Message) : Bool :=
  match m.data.text with
  | [] => false
  | c :: _ => c == '/'

/-- Command: the first space-delimited token without the leading '/',
truncated at the first '@' (the at-bot syntax); empty if the message is
not a command. -/
def Message.Command (m : Message) : GoStr :=
  if !m.IsCommand then []
  else
    let command := ((splitN2 m.data.text).headD []).drop 1
    if command.any (· == '@') then command.takeWhile (· ≠ '@') else command

/-- CommandArguments: all text after the command name; empty if the
message is not a command or has no arguments. -/
def Message.CommandArguments (m : Message) : GoStr :=
  if !m.IsCommand then []
  else
    let split := splitN2 m.data.text
    if split.length ≠ 2 then [] else split.getD 1 []

/-- A Go runtime panic observable when running the embedded methods. -/
inductive GoPanic where
  | nilPointerDereference : GoPanic
deriving DecidableEq

/-- IsCommand has receiver `*Message`; invoked on a nil pointer the
body's read of `m.Text` is a nil-pointer dereference panic. -/
def Message.IsCommandPtr : Option Message → Except GoPanic Bool
  | none => .error .nilPointerDereference
  | some m => .ok m.IsCommand

/-- Command invoked through a possibly nil `*Message`. -/
def Message.CommandPtr : Option Message → Except GoPanic GoStr
  | none => .error .nilPointerDereference
  | some m => .ok m.Command

/-- CommandArguments invoked through a possibly nil `*Message`. -/
def Message.CommandArgumentsPtr : Option Message → Except GoPanic GoStr
  | none => .error .nilPointerDereference
  | some m => .ok m.CommandArguments

/- ------------------------------------------------------------------
The update channel and Clear (types.go lines 46-54).
------------------------------------------------------------------ -/

/-- UpdatesChannel is the buffered channel for getting updates,
modelled by its buffer contents (head = next update received). -/
abbrev UpdatesChannel := List Update

/-- A producer send appends to the buffer. -/
def UpdatesChannel.send (ch : UpdatesChannel) (u : Update) : UpdatesChannel :=
  ch ++ [u]

/-- A receive takes the oldest buffered update; on an empty buffer it
blocks (no value is produced). -/
def UpdatesChannel.receive (ch : UpdatesChannel) :
    Option (Update × UpdatesChannel) :=
  match ch with
  | [] => none
  | u :: rest => some (u, rest)

/-- Clear's loop `for len(ch) != 0 { <-ch }` run against an interleaved
producer: `sched` lists the batch of updates the producer delivers
before each length check (a batch may be empty); once `sched` is
exhausted the producer is quiescent.  Returns the number of updates the
loop received together with the buffer contents after the loop has
returned (sends scheduled after the loop exits still arrive). -/
def UpdatesChannel.ClearLoop :
    List (List Update) → UpdatesChannel → Nat → Nat × UpdatesChannel
  | [], buf, consumed => (consumed + buf.length, [])
  | batch :: rest, buf, consumed =>
    match buf ++ batch with
    | [] => (consumed, rest.flatten)
    | _ :: tail => UpdatesChannel.ClearLoop rest tail (consumed + 1)

/-- Clear discards all unprocessed incoming updates: the loop with no
concurrent producer activity. -/
def UpdatesChannel.Clear (ch : UpdatesChannel) : Nat × UpdatesChannel :=
  UpdatesChannel.ClearLoop [] ch 0

/- ------------------------------------------------------------------
Concrete values and predicates used by the verification below.
------------------------------------------------------------------ -/

/-- A message whose only populated field is its text. -/
def textMessage (t : GoStr) : Message := .mk { text := t }

/-- An update whose only populated field is its identifier. -/
def updWithId (i : Int) : Update := { updateId := i }

/-- A message object with a reply chain of depth two: message `a`
replies to message `b`, which itself replies to message `c`. -/
def replyChainJson (a b c : Int) : Json :=
  jobj [(gs "message_id", .num a),
    (gs "reply_to_message", jobj [(gs "message_id", .num b),
      (gs "reply_to_message", jobj [(gs "message_id", .num c)])])]

/-- The full recursive decode of `replyChainJson a b c`. -/
def replyChainMsg (a b c : Int) : Message :=
  let m2 : Message := .mk { messageId := c }
  let m1 : Message := .mk { messageId := b, replyToMessage := some m2 }
  .mk { messageId := a, replyToMessage := some m1 }

/-- An update object in which two recognized sub-payload keys
(`message` and `callback_query`) are both populated. -/
def multiPayloadJson : Json :=
  jobj [(gs "update_id", .num 1),
    (gs "message", jobj [(gs "message_id", .num 2)]),
    (gs "callback_query", jobj [(gs "id", .str (gs "x"))])]

/-- Does some member of the object match the `result` tag? -/
def hasResultKey (l : List (GoStr × Json)) : Bool :=
  l.any fun p => keyMatch p.1 (gs "result")

/-- Does the key match one of Update's eight recognized tags? -/
def recognizedUpdateKey (k : GoStr) : Bool :=
  keyMatch k (gs "update_id") || keyMatch k (gs "message") ||
  keyMatch k (gs "edited_message") || keyMatch k (gs "channel_post") ||
  keyMatch k (gs "edited_channel_post") || keyMatch k (gs "inline_query") ||
  keyMatch k (gs "chosen_inline_result") || keyMatch k (gs "callback_query")

/-- All member keys of the object are unknown to Update (future field
names). -/
def unknownKeys (l : List (GoStr × Json)) : Bool :=
  l.all fun p => ! recognizedUpdateKey p.1

/- ------------------------------------------------------------------
Helper lemmas.
------------------------------------------------------------------ -/

/-- Round trip between member lists and objects. -/
theorem fieldsOf_toList (l : List (GoStr × Json)) : (fieldsOf l).toList = l := by
  induction l with
  | nil => rfl
  | cons p rest ih => obtain ⟨k, v⟩ := p; simp [fieldsOf, JsonFields.toList, ih]

/-- A successful `step` factors through a successful first stage. -/
theorem step_ok_elim {α β : Type} {r : Except UnmarshalError α}
    {f : α → Except UnmarshalError β} {b : β} (h : step r f = .ok b) :
    ∃ x, r = .ok x ∧ f x = .ok b := by
  cases r with
  | ok x => exact ⟨x, rfl, h⟩
  | error e => simp [step] at h

/-- A key that matches tag `a` cannot match a tag `b` that `a` does not
match. -/
theorem keyMatch_trans_ne (k a b : GoStr) (hka : keyMatch k a = true)
    (hab : keyMatch a b = false) : keyMatch k b = false := by
  simp only [keyMatch, beq_iff_eq] at hka
  simp only [keyMatch, hka]
  exact hab

/-- Through the APIResponse member fold, `result` is populated exactly
when it was already populated or some member matches the `result`
tag. -/
theorem apiRespFields_result (l : List (GoStr × Json)) :
    ∀ (acc r : APIResponse), unmarshalAPIResponseFields l acc = .ok r →
      r.result.isSome = (acc.result.isSome || hasResultKey l) := by
  induction l with
  | nil =>
    intro acc r h
    simp only [unmarshalAPIResponseFields] at h
    cases h
    simp [hasResultKey]
  | cons p rest ih =>
    intro acc r h
    obtain ⟨k, v⟩ := p
    have hany : hasResultKey ((k, v) :: rest) =
        (keyMatch k (gs "result") || hasResultKey rest) := by
      simp [hasResultKey]
    simp only [unmarshalAPIResponseFields] at h
    by_cases h1 : keyMatch k (gs "ok") = true
    · have hr : keyMatch k (gs "result") = false :=
        keyMatch_trans_ne k (gs "ok") (gs "result") h1 (by decide)
      simp only [h1, eq_self_iff_true, ite_true] at h
      obtain ⟨x, hx, h⟩ := step_ok_elim h
      rw [ih _ _ h, hany, hr]
      simp
    · simp only [h1, ite_false] at h
      by_cases h2 : keyMatch k (gs "result") = true
      · simp only [h2, eq_self_iff_true, ite_true] at h
        rw [ih _ _ h, hany, h2]
        simp
      · simp only [h2, ite_false] at h
        have hr : keyMatch k (gs "result") = false := by
          simpa using h2
        by_cases h3 : keyMatch k (gs "error_code") = true
        · simp only [h3, eq_self_iff_true, ite_true] at h
          obtain ⟨x, hx, h⟩ := step_ok_elim h
          rw [ih _ _ h, hany, hr]
          simp
        · simp only [h3, ite_false] at h
          by_cases h4 : keyMatch k (gs "description") = true
          · simp only [h4, eq_self_iff_true, ite_true] at h
            obtain ⟨x, hx, h⟩ := step_ok_elim h
            rw [ih _ _ h, hany, hr]
            simp
          · simp only [h4, ite_false] at h
            by_cases h5 : keyMatch k (gs "parameters") = true
            · simp only [h5, eq_self_iff_true, ite_true] at h
              obtain ⟨x, hx, h⟩ := step_ok_elim h
              rw [ih _ _ h, hany, hr]
              simp
            · simp only [h5, ite_false] at h
              rw [ih _ _ h, hany, hr]
              simp

/-- The Update member fold skips a prefix of unknown members
unchanged. -/
theorem updateFields_skip_unknown (l : List (GoStr × Json))
    (h : unknownKeys l = true) :
    ∀ (rest : List (GoStr × Json)) (acc : Update),
      unmarshalUpdateFields (l ++ rest) acc = unmarshalUpdateFields rest acc := by
  induction l with
  | nil => intro rest acc; rfl
  | cons p tail ih =>
    intro rest acc
    obtain ⟨k, v⟩ := p
    simp only [unknownKeys, List.all_cons, Bool.and_eq_true, Bool.not_eq_true'] at h
    obtain ⟨hk, htail⟩ := h
    simp only [recognizedUpdateKey, Bool.or_eq_false_iff] at hk
    obtain ⟨⟨⟨⟨⟨⟨⟨h1, h2⟩, h3⟩, h4⟩, h5⟩, h6⟩, h7⟩, h8⟩ := hk
    have hres := ih htail rest acc
    simp [unmarshalUpdateFields, h1, h2, h3, h4, h5, h6, h7, h8, hres]

/-- Conservation through Clear's loop, at any starting count: received
plus left-over equals the initial depth plus everything the producer
delivered. -/
theorem clearLoop_conservation (sched : List (List Update)) :
    ∀ (buf : UpdatesChannel) (consumed : Nat),
      (UpdatesChannel.ClearLoop sched buf consumed).1 +
        (UpdatesChannel.ClearLoop sched buf consumed).2.length =
      consumed + buf.length + (sched.map List.length).sum := by
  induction sched with
  | nil => intro buf consumed; simp [UpdatesChannel.ClearLoop]
  | cons batch rest ih =>
    intro buf consumed
    rcases hb : buf ++ batch with _ | ⟨u, tail⟩
    · rw [List.append_eq_nil] at hb
      simp [UpdatesChannel.ClearLoop, hb.1, hb.2, List.length_flatten]
    · have h2 := congrArg List.length hb
      simp only [List.length_append, List.length_cons] at h2
      have h3 := ih tail (consumed + 1)
      simp only [UpdatesChannel.ClearLoop, hb, h3, List.map_cons, List.sum_cons]
      omega

/- ------------------------------------------------------------------
The claims.
------------------------------------------------------------------ -/

/-- C1, counterexample: the update object in which both `message` and
`callback_query` are populated is not rejected, and the decoded Update
exposes both sub-payloads simultaneously — so the decoder neither
rejects nor picks exactly one. -/
theorem c1_multi_subpayload_not_rejected_nor_pruned :
    (match unmarshalUpdate multiPayloadJson with
     | .ok u => u.message.isSome && u.callbackQuery.isSome
     | .error _ => false) = true := by decide

/-- C1, as amended: the decoder populates every recognized sub-payload
key present in the object; whenever the `message` and `callback_query`
member values decode, the resulting Update carries both sub-payloads
at once (no rejection, no priority order). -/
theorem c1_decoder_populates_every_present_subpayload
    (mfs cfs : List (GoStr × Json)) (m : Message) (c : CallbackQuery)
    (hm : unmarshalMessage (jobj mfs) = .ok m)
    (hc : unmarshalCallbackQuery (jobj cfs) = .ok c) :
    unmarshalUpdate (jobj [(gs "update_id", .num 1),
      (gs "message", jobj mfs), (gs "callback_query", jobj cfs)]) =
    .ok { updateId := 1, message := some m, callbackQuery := some c } := by
  have hm' : unmarshalMessageInto (Json.obj (fieldsOf mfs)) Message.zero = .ok m := hm
  have hc' : unmarshalCallbackQueryInto (Json.obj (fieldsOf cfs)) {} = .ok c := hc
  have k1 : keyMatch (gs "update_id") (gs "update_id") = true := by decide
  have k2 : keyMatch (gs "message") (gs "update_id") = false := by decide
  have k3 : keyMatch (gs "message") (gs "message") = true := by decide
  have k4 : keyMatch (gs "callback_query") (gs "update_id") = false := by decide
  have k5 : keyMatch (gs "callback_query") (gs "message") = false := by decide
  have k6 : keyMatch (gs "callback_query") (gs "edited_message") = false := by decide
  have k7 : keyMatch (gs "callback_query") (gs "channel_post") = false := by decide
  have k8 : keyMatch (gs "callback_query") (gs "edited_channel_post") = false := by decide
  have k9 : keyMatch (gs "callback_query") (gs "inline_query") = false := by decide
  have k10 : keyMatch (gs "callback_query") (gs "chosen_inline_result") = false := by decide
  have k11 : keyMatch (gs "callback_query") (gs "callback_query") = true := by decide
  simp only [unmarshalUpdate, unmarshalUpdateInto, jobj, fieldsOf, JsonFields.toList,
    unmarshalUpdateFields, k1, k2, k3, k4, k5, k6, k7, k8, k9, k10, k11,
    Bool.false_eq_true, eq_self_iff_true, ite_true, ite_false,
    jint, jptr, step, Option.getD, hm', hc']

/-- C1, witness: the amended theorem applied to the concrete message
and callback-query member lists of `multiPayloadJson`. -/
theorem c1_decoder_populates_every_present_subpayload_witness :
    unmarshalUpdate (jobj [(gs "update_id", .num 1),
      (gs "message", jobj [(gs "message_id", .num 2)]),
      (gs "callback_query", jobj [(gs "id", .str (gs "x"))])]) =
    .ok { updateId := 1, message := some (.mk { messageId := 2 }),
          callbackQuery := some { id := gs "x" } } :=
  c1_decoder_populates_every_present_subpayload
    [(gs "message_id", .num 2)] [(gs "id", .str (gs "x"))]
    (.mk { messageId := 2 }) { id := gs "x" } (by rfl) (by rfl)

/-- C2, counterexample: the well-formed envelope with only an `ok` key
decodes with the success flag true and `result` absent, and the
envelope with `ok=false` and a `result` key decodes with the flag false
and `result` present — both directions of the claimed biconditional
fail. -/
theorem c2_result_absent_with_success_true :
    unmarshalAPIResponse (jobj [(gs "ok", .boolean true)]) =
      .ok { ok := true } ∧
    unmarshalAPIResponse (jobj [(gs "ok", .boolean false), (gs "result", .num 5)]) =
      .ok { ok := false, result := some (.num 5) } :=
  ⟨rfl, rfl⟩

/-- C2, as amended: decoding populates the envelope fields
independently of one another; `result` is non-absent exactly when the
object contains a `result` key, regardless of the success flag. -/
theorem c2_result_presence_tracks_result_key_only
    (l : List (GoStr × Json)) (r : APIResponse)
    (h : unmarshalAPIResponse (jobj l) = .ok r) :
    r.result.isSome = hasResultKey l := by
  simp only [unmarshalAPIResponse, unmarshalAPIResponseInto, jobj, fieldsOf_toList] at h
  have := apiRespFields_result l {} r h
  simpa using this

/-- C2, witness: the amended theorem applied to the envelope with only
an `ok` key. -/
theorem c2_result_presence_tracks_result_key_only_witness :
    ({ ok := true : APIResponse }).result.isSome =
      hasResultKey [(gs "ok", .boolean true)] :=
  c2_result_presence_tracks_result_key_only
    [(gs "ok", .boolean true)] { ok := true } (by rfl)

/-- C3, counterexample: the depth-two reply chain decodes successfully
and the grandparent reply link is present, not dropped — the decoder
does not truncate at depth 1. -/
theorem c3_grandparent_reply_link_present :
    (match unmarshalMessage (replyChainJson 1 2 3) with
     | .ok m => (m.data.replyToMessage.bind fun m1 => m1.data.replyToMessage).isSome
     | .error _ => false) = true := by decide

set_option maxRecDepth 8000 in
/-- C3, as amended: the decoder recurses into nested `reply_to_message`
objects and preserves the whole chain: a message whose reply itself
contains a populated reply decodes to the fully nested Message value
(depth-1 truncation is a platform guarantee, not enforced locally). -/
theorem c3_decoder_preserves_nested_reply_chain :
    ∀ a b c : Int, unmarshalMessage (replyChainJson a b c) = .ok (replyChainMsg a b c) :=
  fun _ _ _ => rfl

/-- C4, counterexample: for the update with no message sub-payload,
invoking IsCommand and Command through the nil message pointer is a
nil-pointer dereference panic, not a false/empty-string result. -/
theorem c4_nil_message_accessor_panics :
    Message.IsCommandPtr (updWithId 7).message = .error .nilPointerDereference ∧
    ¬ Message.IsCommandPtr (updWithId 7).message = .ok false ∧
    ¬ Message.CommandPtr (updWithId 7).message = .ok [] :=
  ⟨rfl, by simp [updWithId, Message.IsCommandPtr],
    by simp [updWithId, Message.CommandPtr]⟩

/-- C4, as amended: for every Update carrying no message sub-payload,
each of the three command accessors invoked through the nil message
pointer panics with a nil-pointer dereference instead of returning an
empty result. -/
theorem c4_accessors_panic_without_message (u : Update) (h : u.message = none) :
    Message.IsCommandPtr u.message = .error .nilPointerDereference ∧
    Message.CommandPtr u.message = .error .nilPointerDereference ∧
    Message.CommandArgumentsPtr u.message = .error .nilPointerDereference := by
  rw [h]
  exact ⟨rfl, rfl, rfl⟩

/-- C4, witness: the amended theorem applied to the update with only an
identifier. -/
theorem c4_accessors_panic_without_message_witness :
    Message.IsCommandPtr (updWithId 7).message = .error .nilPointerDereference ∧
    Message.CommandPtr (updWithId 7).message = .error .nilPointerDereference ∧
    Message.CommandArgumentsPtr (updWithId 7).message = .error .nilPointerDereference :=
  c4_accessors_panic_without_message (updWithId 7) rfl

/-- C5: the message "/start@mybot hello world" is a command named
"start" (bot mention removed, case preserved) with arguments
"hello world"; the message "hello" is not a command and its command
name is empty. -/
theorem c5_command_parsing_examples :
    (textMessage (gs "/start@mybot hello world")).IsCommand = true ∧
    (textMessage (gs "/start@mybot hello world")).Command = gs "start" ∧
    (textMessage (gs "/start@mybot hello world")).CommandArguments = gs "hello world" ∧
    (textMessage (gs "hello")).IsCommand = false ∧
    (textMessage (gs "hello")).Command = [] := by decide

/-- C6: with no concurrent producer activity, Clear receives exactly
the items currently buffered and leaves the buffer empty (without error
when already empty), after which a receive on the emptied buffer blocks
until a new send, whose item is then the one received — never a
pre-discard item. -/
theorem c6_clear_drains_quiescent_buffer :
    ∀ ch : UpdatesChannel, UpdatesChannel.Clear ch = (ch.length, []) ∧
      UpdatesChannel.receive [] = none ∧
      ∀ u, UpdatesChannel.receive (UpdatesChannel.send [] u) = some (u, []) := by
  intro ch
  refine ⟨?_, rfl, fun _ => rfl⟩
  simp [UpdatesChannel.Clear, UpdatesChannel.ClearLoop]

/-- C7, counterexample: with one item buffered at the call and a
producer that keeps feeding one item before each length check, Clear's
loop receives four items — more than the single item buffered at the
moment of the call, refuting the claimed bound by the buffer depth. -/
theorem c7_clear_consumes_beyond_initial_depth :
    (UpdatesChannel.ClearLoop [[updWithId 2], [updWithId 3], [updWithId 4]]
      [updWithId 1] 0).1 = 4 ∧
    (UpdatesChannel.ClearLoop [[updWithId 2], [updWithId 3], [updWithId 4]]
      [updWithId 1] 0).2.length = 0 ∧
    ¬((UpdatesChannel.ClearLoop [[updWithId 2], [updWithId 3], [updWithId 4]]
      [updWithId 1] 0).1 ≤ ([updWithId 1] : UpdatesChannel).length) :=
  ⟨rfl, rfl, by decide⟩

/-- C7, as amended: Clear's loop removes the items buffered at the call
plus whatever a concurrent producer delivers while it runs — bounded by
that sum, not by the initial depth alone — and every item is either
removed by the loop or still buffered after it returns (items arriving
after the return are not retroactively discarded). -/
theorem c7_clear_conservation :
    ∀ (sched : List (List Update)) (buf : UpdatesChannel),
      (UpdatesChannel.ClearLoop sched buf 0).1 +
          (UpdatesChannel.ClearLoop sched buf 0).2.length =
        buf.length + (sched.map List.length).sum ∧
      (UpdatesChannel.ClearLoop sched buf 0).1 ≤
        buf.length + (sched.map List.length).sum := by
  intro sched buf
  have h := clearLoop_conservation sched buf 0
  constructor
  · simpa using h
  · omega

/-- C8: an update object whose members, apart from a well-typed
`update_id`, all carry keys unknown to Update decodes successfully into
the Update with that identifier and every recognized sub-payload field
absent. -/
theorem c8_unknown_keys_tolerated (id : Int) (l1 l2 : List (GoStr × Json))
    (h1 : unknownKeys l1 = true) (h2 : unknownKeys l2 = true) :
    unmarshalUpdate (jobj (l1 ++ (gs "update_id", .num id) :: l2)) =
      .ok { updateId := id } := by
  have k1 : keyMatch (gs "update_id") (gs "update_id") = true := by decide
  have hskip1 := updateFields_skip_unknown l1 h1 ((gs "update_id", .num id) :: l2) {}
  have hskip2 := updateFields_skip_unknown l2 h2 [] { updateId := id }
  simp only [List.append_nil] at hskip2
  simp only [unmarshalUpdate, unmarshalUpdateInto, jobj, fieldsOf_toList, hskip1,
    unmarshalUpdateFields, k1, eq_self_iff_true, ite_true, jint, step, hskip2]

/-- C8, witness: the theorem applied to an object carrying the unknown
keys shipping_query and poll around update_id 5. -/
theorem c8_unknown_keys_tolerated_witness :
    unknownKeys [(gs "shipping_query", jobj [])] = true ∧
    unknownKeys [(gs "poll", .str (gs "x"))] = true ∧
    unmarshalUpdate (jobj ([(gs "shipping_query", jobj [])] ++
      (gs "update_id", .num 5) :: [(gs "poll", .str (gs "x"))])) =
      .ok { updateId := 5 } :=
  ⟨by decide, by decide,
    c8_unknown_keys_tolerated 5 [(gs "shipping_query", jobj [])]
      [(gs "poll", .str (gs "x"))] (by decide) (by decide)⟩

/-- C9: the four chat-type predicates are mutually exclusive — at most
one returns true for any Chat — and when the type string is none of
"private", "group", "supergroup", "channel", all four return false. -/
theorem c9_chat_type_predicates_exclusive :
    ∀ c : Chat,
      (c.IsPrivate.toNat + c.IsGroup.toNat + c.IsSuperGroup.toNat + c.IsChannel.toNat ≤ 1) ∧
      (c.type ≠ gs "private" → c.type ≠ gs "group" → c.type ≠ gs "supergroup" →
        c.type ≠ gs "channel" →
        c.IsPrivate = false ∧ c.IsGroup = false ∧ c.IsSuperGroup = false ∧
          c.IsChannel = false) := by
  intro c
  constructor
  · by_cases h : c.type = gs "private"
    · simp only [Chat.IsPrivate, Chat.IsGroup, Chat.IsSuperGroup, Chat.IsChannel, h]
      decide
    · by_cases h2 : c.type = gs "group"
      · simp only [Chat.IsPrivate, Chat.IsGroup, Chat.IsSuperGroup, Chat.IsChannel, h2]
        decide
      · by_cases h3 : c.type = gs "supergroup"
        · simp only [Chat.IsPrivate, Chat.IsGroup, Chat.IsSuperGroup, Chat.IsChannel, h3]
          decide
        · have e1 : (c.type == gs "private") = false := beq_eq_false_iff_ne.mpr h
          have e2 : (c.type == gs "group") = false := beq_eq_false_iff_ne.mpr h2
          have e3 : (c.type == gs "supergroup") = false := beq_eq_false_iff_ne.mpr h3
          simp only [Chat.IsPrivate, Chat.IsGroup, Chat.IsSuperGroup, Chat.IsChannel,
            e1, e2, e3]
          cases hq : c.type == gs "channel" <;> simp
  · intro h1 h2 h3 h4
    simp [Chat.IsPrivate, Chat.IsGroup, Chat.IsSuperGroup, Chat.IsChannel,
      beq_eq_false_iff_ne, h1, h2, h3, h4]

/-- C9, witness: the theorem applied to a chat whose type string is
none of the four constants. -/
theorem c9_chat_type_predicates_exclusive_witness :
    (({ type := gs "gibberish" } : Chat).IsPrivate.toNat +
      ({ type := gs "gibberish" } : Chat).IsGroup.toNat +
      ({ type := gs "gibberish" } : Chat).IsSuperGroup.toNat +
      ({ type := gs "gibberish" } : Chat).IsChannel.toNat ≤ 1) ∧
    (({ type := gs "gibberish" } : Chat).IsPrivate = false ∧
      ({ type := gs "gibberish" } : Chat).IsGroup = false ∧
      ({ type := gs "gibberish" } : Chat).IsSuperGroup = false ∧
      ({ type := gs "gibberish" } : Chat).IsChannel = false) :=
  ⟨(c9_chat_type_predicates_exclusive { type := gs "gibberish" }).1,
    (c9_chat_type_predicates_exclusive { type := gs "gibberish" }).2
      (by decide) (by decide) (by decide) (by decide)⟩

/-- C10: IsCommand true does not imply a non-empty command name — for
the texts "/", "/@mybot" and "/ hello", IsCommand returns true while
Command returns the empty string. -/
theorem c10_slash_only_command_empty_name :
    (textMessage (gs "/")).IsCommand = true ∧ (textMessage (gs "/")).Command = [] ∧
    (textMessage (gs "/@mybot")).IsCommand = true ∧
    (textMessage (gs "/@mybot")).Command = [] ∧
    (textMessage (gs "/ hello")).IsCommand = true ∧
    (textMessage (gs "/ hello")).Command = [] := by decide

end tgbotapi
